import Mathlib

/-!
Shallow embedding of `src/main.py` (YouTube new-channel discovery tool).

The program is a linear pipeline:
search popular videos (collecting unique channel ids) → fetch channel
details in batches of 50 → filter to channels created at/after a cutoff →
sort by subscriber count → render/export.

Timestamps are modelled as integers (any totally ordered representation of
timezone-aware datetimes works for the claims at hand).  The ISO-8601 date
parser `dateutil.parser.isoparse` is an external library; the embedding
takes the parse function as a parameter `parse : String → Option Int`
(`none` models a `ValueError`).  Remote API responses are likewise supplied
as explicit data: the search loop consumes a list of per-request responses
and the channel-details loop a per-batch response function, each response
being `Except Unit _` where `Except.error ()` models an exception raised by
the call (`HttpError` or any other).
-/

/-- Constant `MAX_VIDEO_RESULTS_PER_PAGE = 50` (src/main.py line 11). -/
def MAX_VIDEO_RESULTS_PER_PAGE : Nat := 50

/-- Constant `MAX_TOTAL_VIDEO_RESULTS = 100` (src/main.py line 12). -/
def MAX_TOTAL_VIDEO_RESULTS : Nat := 100

/-- Constant `MAX_CHANNELS_TO_FETCH_PER_CALL = 50` (src/main.py line 14). -/
def MAX_CHANNELS_TO_FETCH_PER_CALL : Nat := 50

/-- Constant `NEW_CHANNEL_DAYS_THRESHOLD = 30` (src/main.py line 16). -/
def NEW_CHANNEL_DAYS_THRESHOLD : Nat := 30

/-- The `snippet` object of one item of a `channels().list` response.
Absent dictionary keys are `none` (Python `dict.get` returns `None`). -/
structure RawSnippet where
  title : Option String
  snippetDescr : Option String
  publishedAt : Option String
deriving Repr, DecidableEq

/-- The `statistics` object of one item of a `channels().list` response.
Counts arrive as decimal strings in JSON; absent keys are `none`. -/
structure RawStats where
  subscriberCount : Option String
  viewCount : Option String
  videoCount : Option String
  hiddenSubscriberCount : Option Bool
deriving Repr, DecidableEq

/-- One item of a `channels().list` response (`item.get('snippet', {})`
and `item.get('statistics', {})` default to empty dicts, i.e. all-`none`
structures). -/
structure RawChannelItem where
  itemId : Option String
  snippet : RawSnippet
  statistics : RawStats
deriving Repr, DecidableEq

/-- Value of a list of decimal digit characters, most significant first. -/
def decDigitsVal : List Char → Nat → Nat
  | [], acc => acc
  | c :: cs, acc => decDigitsVal cs (acc * 10 + (c.toNat - 48))

/-- Python `int` on the decimal strings the API returns.  The source would
raise on a non-numeric string; the embedding is only ever applied to
numeric ones. -/
def pyInt (s : String) : Nat :=
  decDigitsVal s.data 0

/-- Source line `subscriber_count_int = int(subscriber_count) if subscriber_count else 0`
(src/main.py lines 155-156): the count is taken from the string field when
that string is present and non-empty (truthy), and is 0 otherwise.  The
`hiddenSubscriberCount` flag is not consulted here. -/
def subscriberCountInt (stats : RawStats) : Nat :=
  match stats.subscriberCount with
  | some s => if s = "" then 0 else pyInt s
  | none => 0

/-- Source `int(statistics.get('viewCount', 0))`: a missing key defaults to 0. -/
def statCountInt (field : Option String) : Nat :=
  match field with
  | some s => pyInt s
  | none => 0

/-- The dictionary appended to `channel_data` for one decoded item
(src/main.py lines 158-168). -/
structure ChannelRecord where
  channel_id : Option String
  channel_name : Option String
  channelDescr : Option String
  published_at_str : Option String
  published_at : Option Int
  subscriber_count : Nat
  view_count : Nat
  video_count : Nat
  hidden_subscriber_count : Bool
deriving Repr, DecidableEq

/-- The per-item body of the decoding loop in `get_channel_details`
(src/main.py lines 139-168).  Returns the record appended to
`channel_data` (`none` when the item is skipped by the `continue` on a
date-parse failure) together with whether `st.warning` was emitted.
When `publishedAt` is absent the `if published_at_str:` guard is false:
no parse is attempted, no warning is emitted, and the record is appended
with `published_at = none`. -/
def decodeChannelItem (parse : String → Option Int) (item : RawChannelItem) :
    Option ChannelRecord × Bool :=
  match item.snippet.publishedAt with
  | none =>
    (some {
      channel_id := item.itemId
      channel_name := item.snippet.title
      channelDescr := item.snippet.snippetDescr
      published_at_str := none
      published_at := none
      subscriber_count := subscriberCountInt item.statistics
      view_count := statCountInt item.statistics.viewCount
      video_count := statCountInt item.statistics.videoCount
      hidden_subscriber_count := (item.statistics.hiddenSubscriberCount).getD false }, false)
  | some s =>
    match parse s with
    | none => (none, true)
    | some t =>
      (some {
        channel_id := item.itemId
        channel_name := item.snippet.title
        channelDescr := item.snippet.snippetDescr
        published_at_str := some s
        published_at := some t
        subscriber_count := subscriberCountInt item.statistics
        view_count := statCountInt item.statistics.viewCount
        video_count := statCountInt item.statistics.videoCount
        hidden_subscriber_count := (item.statistics.hiddenSubscriberCount).getD false }, false)

/-- The records appended for the items of one successful batch response,
in response order. -/
def decodeItems (parse : String → Option Int) (items : List RawChannelItem) :
    List ChannelRecord :=
  items.filterMap (fun it => (decodeChannelItem parse it).1)

/-- Source `channel_ids[i:i + MAX_CHANNELS_TO_FETCH_PER_CALL]` for
`i in range(0, len(channel_ids), MAX_CHANNELS_TO_FETCH_PER_CALL)`
(src/main.py lines 130-131): the id list cut into consecutive chunks of
size `k` (the last one possibly shorter). -/
def chunkList (k : Nat) (l : List String) : List (List String) :=
  if h : l = [] ∨ k = 0 then []
  else l.take k :: chunkList k (l.drop k)
termination_by l.length
decreasing_by
  simp only [not_or] at h
  have hl : l.length ≠ 0 := by
    simpa [List.length_eq_zero] using h.1
  have hk : 0 < k := Nat.pos_of_ne_zero h.2
  simpa using Nat.sub_lt (Nat.pos_of_ne_zero hl) hk

/-- Function `get_channel_details` (src/main.py lines 126-178), instrumented: the
batch loop, where `svc batch` is the outcome of the `channels().list` call
for that batch.  An `Except.error` response models the `except` arms
(lines 169-176): the error is reported and the loop `continue`s with the
next batch.  Returns the accumulated `channel_data` together with the list
of batches whose call failed (those for which `st.error` was shown). -/
def get_channel_details_run (parse : String → Option Int)
    (svc : List String → Except Unit (List RawChannelItem))
    (channel_ids : List String) : List ChannelRecord × List (List String) :=
  (chunkList MAX_CHANNELS_TO_FETCH_PER_CALL channel_ids).foldl
    (fun acc batch =>
      match svc batch with
      | Except.error _ => (acc.1, acc.2 ++ [batch])
      | Except.ok items => (acc.1 ++ decodeItems parse items, acc.2))
    ([], [])

/-- The value `get_channel_details` returns: the accumulated record list. -/
def get_channel_details (parse : String → Option Int)
    (svc : List String → Except Unit (List RawChannelItem))
    (channel_ids : List String) : List ChannelRecord :=
  (get_channel_details_run parse svc channel_ids).1

/-- Source `df.dropna(subset=['published_at'])` (src/main.py line 203): keep the
records whose `published_at` is not null. -/
def dropnaPublishedAt (records : List ChannelRecord) : List ChannelRecord :=
  records.filter (fun r => r.published_at.isSome)

/-- Source `df_filtered['is_new'] = df_filtered['published_at'] >= one_month_ago`
(src/main.py line 206), as the row-wise boolean: true exactly when the
timestamp is present and at or after the cutoff. -/
def isNew (cutoff : Int) (r : ChannelRecord) : Bool :=
  match r.published_at with
  | some t => decide (cutoff ≤ t)
  | none => false

/-- The Filter stage (src/main.py lines 203-207): drop null timestamps,
then keep the rows where `is_new` holds
(`new_channels_df = df_filtered[df_filtered['is_new']]`).  Row order is
the input order (pandas boolean filtering preserves it). -/
def filterNewChannels (cutoff : Int) (records : List ChannelRecord) :
    List ChannelRecord :=
  (dropnaPublishedAt records).filter (isNew cutoff)

/-- Comma-grouping of a digit list given least-significant digit first:
after every third digit a `,` is inserted when more digits follow. -/
def commaGroup : List Char → List Char
  | a :: b :: c :: d :: rest => a :: b :: c :: ',' :: commaGroup (d :: rest)
  | l => l

/-- Python `f"{n:,}"` for a non-negative int: decimal digits grouped in
threes by commas (src/main.py lines 217, 220, 221). -/
def formatThousands (n : Nat) : String :=
  String.mk (commaGroup (Nat.toDigits 10 n).reverse).reverse

/-- The `登録者数` display column (src/main.py lines 216-219):
`f"{row['subscriber_count']:,}" if not row['hidden_subscriber_count']
else "非公開"`. -/
def subscriberDisplay (r : ChannelRecord) : String :=
  if !r.hidden_subscriber_count then formatThousands r.subscriber_count
  else "非公開"

/-- One item of a `search().list` response: the fields the loop reads,
`item['id']['videoId']` and `item['snippet']['channelId']`. -/
structure SearchItem where
  videoId : String
  channelId : String
deriving Repr, DecidableEq

/-- One `search().list` response: its `items` and `nextPageToken`. -/
structure SearchPage where
  items : List SearchItem
  nextPageToken : Option String
deriving Repr, DecidableEq

/-- Source `channel_ids.add(...)` on the Python set (src/main.py line 106):
adding a member already present is a no-op.  The set is modelled as its
insertion-ordered support list. -/
def setAdd (s : List String) (a : String) : List String :=
  if a ∈ s then s else s ++ [a]

/-- The mutable locals of `search_popular_videos` (src/main.py
lines 84-87), plus two instrumentation fields: `requests` logs, for every
`search().list` call issued, the pair (`results_fetched` at call time,
`maxResults=num_to_fetch` passed), and `scanned` logs the owning-channel
id of every item the item loop processed. -/
structure SearchState where
  requests : List (Nat × Nat)
  video_ids : List String
  channel_ids : List String
  scanned : List String
  results_fetched : Nat
deriving Repr, DecidableEq

/-- The `for item in search_response.get('items', [])` loop (src/main.py
lines 104-109): append the video id, add the channel id to the set,
increment `results_fetched`, and break out once it reaches `max_results`. -/
def scanPageItems (maxResults : Nat) :
    List SearchItem → List String → List String → List String → Nat →
    (List String × List String × List String × Nat)
  | [], vids, chans, scanned, fetched => (vids, chans, scanned, fetched)
  | it :: rest, vids, chans, scanned, fetched =>
    if fetched + 1 ≥ maxResults then
      (vids ++ [it.videoId], setAdd chans it.channelId,
        scanned ++ [it.channelId], fetched + 1)
    else
      scanPageItems maxResults rest (vids ++ [it.videoId])
        (setAdd chans it.channelId) (scanned ++ [it.channelId]) (fetched + 1)

/-- One iteration of the `while results_fetched < max_results` loop
(src/main.py lines 92-113) on a successful response: log the request
(`num_to_fetch = min(MAX_VIDEO_RESULTS_PER_PAGE, max_results -
results_fetched)`, line 93) and scan the page's items.  The environment
supplies one response per issued request, in order; a run that would
issue more requests than the environment list provides stops with the
state reached (such an environment under-specifies the service). -/
def searchStep (maxResults : Nat) (st : SearchState) (page : SearchPage) :
    SearchState :=
  { requests := st.requests ++ [(st.results_fetched,
      min MAX_VIDEO_RESULTS_PER_PAGE (maxResults - st.results_fetched))]
    video_ids := (scanPageItems maxResults page.items st.video_ids
      st.channel_ids st.scanned st.results_fetched).1
    channel_ids := (scanPageItems maxResults page.items st.video_ids
      st.channel_ids st.scanned st.results_fetched).2.1
    scanned := (scanPageItems maxResults page.items st.video_ids
      st.channel_ids st.scanned st.results_fetched).2.2.1
    results_fetched := (scanPageItems maxResults page.items st.video_ids
      st.channel_ids st.scanned st.results_fetched).2.2.2 }

/-- The rest of the `while results_fetched < max_results` loop: response
after response, stopping on a missing `nextPageToken` or a filled quota,
aborting entirely (`none`) on an error. -/
def searchLoop (maxResults : Nat) :
    List (Except Unit SearchPage) → SearchState → Option SearchState
  | [], st => some st
  | resp :: rest, st =>
    if st.results_fetched < maxResults then
      match resp with
      | Except.error _ => none
      | Except.ok page =>
        match page.nextPageToken with
        | none => some (searchStep maxResults st page)
        | some _ =>
          if (searchStep maxResults st page).results_fetched ≥ maxResults then
            some (searchStep maxResults st page)
          else searchLoop maxResults rest (searchStep maxResults st page)
    else some st

/-- A full run of the paginated search, from the initial locals. -/
def searchRun (responses : List (Except Unit SearchPage)) (maxResults : Nat) :
    Option SearchState :=
  searchLoop maxResults responses
    { requests := [], video_ids := [], channel_ids := [], scanned := [],
      results_fetched := 0 }

/-- Function `search_popular_videos` (src/main.py lines 82-124): the returned
channel-id list — `list(channel_ids)` on success, `[]` when any call in
the loop raised (the `except` arms, lines 118-124). -/
def search_popular_videos (responses : List (Except Unit SearchPage))
    (maxResults : Nat) : List String :=
  match searchRun responses maxResults with
  | none => []
  | some st => st.channel_ids

/-- Outcome of `get_youtube_service` (src/main.py lines 64-80): the
warning path for an empty key, a built client handle, or a reported
build failure (either `except` arm). -/
inductive ServiceOutcome
  | noKeyWarning
  | service
  | buildFailed
deriving Repr, DecidableEq

/-- Function `get_youtube_service` (src/main.py lines 64-80).  The
credential is checked for truthiness first: an empty string triggers
`st.warning("APIキーを入力してください。")` and `return None` before any
client construction; `buildResult` is the outcome of the `build(...)`
call, consulted only on the non-empty path. -/
def get_youtube_service (api_key_input : String)
    (buildResult : Except Unit Unit) : ServiceOutcome :=
  if api_key_input = "" then ServiceOutcome.noKeyWarning
  else
    match buildResult with
    | Except.ok _ => ServiceOutcome.service
    | Except.error _ => ServiceOutcome.buildFailed

/-- A network call the application can attempt: client construction, one
`search().list` page request (with its `maxResults` argument), or one
`channels().list` batch request (with its id list). -/
inductive ApiCall
  | buildService
  | searchList (numToFetch : Nat)
  | channelsList (ids : List String)
deriving Repr, DecidableEq

/-- The `maxResults` argument of every `search().list` call the search
loop issues, in order, including the one that raises when the response is
an error (mirrors `searchLoop`, whose request log does not survive the
abort). -/
def searchCallSizes (maxResults : Nat) :
    List (Except Unit SearchPage) → Nat → List Nat
  | [], _ => []
  | resp :: rest, fetched =>
    if fetched < maxResults then
      match resp with
      | Except.error _ => [min MAX_VIDEO_RESULTS_PER_PAGE (maxResults - fetched)]
      | Except.ok page =>
        min MAX_VIDEO_RESULTS_PER_PAGE (maxResults - fetched) ::
          (match page.nextPageToken with
           | none => []
           | some _ =>
             if (scanPageItems maxResults page.items [] [] [] fetched).2.2.2 ≥
                 maxResults then []
             else searchCallSizes maxResults rest
               (scanPageItems maxResults page.items [] [] [] fetched).2.2.2)
    else []

/-- The environment of one run: outcomes of the external calls and the
user inputs read inside the main block. -/
structure AppEnv where
  buildResult : Except Unit Unit
  buttonPressed : Bool
  searchResponses : List (Except Unit SearchPage)
  detailSvc : List String → Except Unit (List RawChannelItem)
  maxVideos : Nat
deriving Inhabited

/-- The network calls the main block (src/main.py lines 181-261) attempts
for one run.  Guard structure mirrors the source: `if api_key:` (line 181,
empty string is falsy — the `else` shows `st.info` and attempts nothing),
then `build` inside `get_youtube_service`, then the button guard, then
`search_popular_videos`, and `get_channel_details` only when the id list
is non-empty (line 190). -/
def appApiCalls (api_key : String) (env : AppEnv) : List ApiCall :=
  if api_key = "" then []
  else
    ApiCall.buildService ::
      (match get_youtube_service api_key env.buildResult with
       | ServiceOutcome.service =>
         if env.buttonPressed then
           (searchCallSizes env.maxVideos env.searchResponses 0).map
               ApiCall.searchList ++
             (if search_popular_videos env.searchResponses env.maxVideos = []
              then []
              else (chunkList MAX_CHANNELS_TO_FETCH_PER_CALL
                  (search_popular_videos env.searchResponses env.maxVideos)).map
                ApiCall.channelsList)
         else []
       | _ => [])

/-- A hidden-count record with a large stored numeric count, and its
flag-cleared variant. -/
def recHiddenW : ChannelRecord :=
  { channel_id := none, channel_name := none, channelDescr := none,
    published_at_str := none, published_at := none,
    subscriber_count := 1234567, view_count := 0, video_count := 0,
    hidden_subscriber_count := true }

/-- The same record with the hidden flag cleared. -/
def recShownW : ChannelRecord :=
  { recHiddenW with hidden_subscriber_count := false }

/-- An item whose snippet carries no `publishedAt` key at all. -/
def itemNoDateW : RawChannelItem :=
  { itemId := some "UCabc",
    snippet := { title := some "a channel", snippetDescr := none,
                 publishedAt := none },
    statistics := { subscriberCount := some "10", viewCount := some "20",
                    videoCount := some "3",
                    hiddenSubscriberCount := some false } }

/-- An item whose statistics carry both `hiddenSubscriberCount = true`
and a numeric `subscriberCount` string. -/
def itemHiddenWithCount : RawChannelItem :=
  { itemId := some "UCdef",
    snippet := { title := some "hidden channel", snippetDescr := none,
                 publishedAt := none },
    statistics := { subscriberCount := some "500", viewCount := none,
                    videoCount := none,
                    hiddenSubscriberCount := some true } }

/-- An item marked hidden whose statistics omit `subscriberCount`. -/
def itemHiddenNoCount : RawChannelItem :=
  { itemId := some "UCxyz",
    snippet := { title := none, snippetDescr := none, publishedAt := none },
    statistics := { subscriberCount := none, viewCount := none,
                    videoCount := none,
                    hiddenSubscriberCount := some true } }

/-- Properties of the item-loop result quadruple
(video ids, channel-id set, scanned channel ids, results fetched): the
two logs each have one entry per scanned item, the set is exactly the
order-preserving deduplication of the scanned ids, and the scan count
never exceeds the quota. -/
def ScanOut (maxResults : Nat)
    (r : List String × List String × List String × Nat) : Prop :=
  r.1.length = r.2.2.2 ∧ r.2.2.1.length = r.2.2.2 ∧
    r.2.1 = r.2.2.1.foldl setAdd [] ∧ r.2.2.2 ≤ maxResults

/-- Invariant of the search loop state: the video-id log and the scanned
log have one entry per fetched result, the channel-id set is the
order-preserving deduplication of the scanned ids, the fetched count never
exceeds the quota, and every logged request asked for
`min(MAX_VIDEO_RESULTS_PER_PAGE, max_results - results_fetched)` items at
a moment when the quota was not yet filled. -/
def SearchInv (maxResults : Nat) (st : SearchState) : Prop :=
  st.video_ids.length = st.results_fetched ∧
  st.scanned.length = st.results_fetched ∧
  st.channel_ids = st.scanned.foldl setAdd [] ∧
  st.results_fetched ≤ maxResults ∧
  ∀ p ∈ st.requests,
    p.2 = min MAX_VIDEO_RESULTS_PER_PAGE (maxResults - p.1) ∧
      p.1 < maxResults

/-- Total number of items over a list of pages. -/
def pageItemsTotal (pre : List SearchPage) : Nat :=
  (pre.map (fun p => p.items.length)).sum

/-- Two search pages repeating channel id `A` across pages. -/
def sampleDupResponses : List (Except Unit SearchPage) :=
  [Except.ok { items := [{ videoId := "v1", channelId := "A" },
                         { videoId := "v2", channelId := "B" }],
               nextPageToken := some "tok" },
   Except.ok { items := [{ videoId := "v3", channelId := "A" }],
               nextPageToken := none }]

/-- One page with three items, two of them from the same channel. -/
def sampleBoundResponses : List (Except Unit SearchPage) :=
  [Except.ok { items := [{ videoId := "v1", channelId := "A" },
                         { videoId := "v2", channelId := "A" },
                         { videoId := "v3", channelId := "B" }],
               nextPageToken := none }]

/-- The state a quota-2 run over `sampleBoundResponses` ends in: only two
of the three items are scanned. -/
def sampleBoundState : SearchState :=
  { requests := [(0, 2)], video_ids := ["v1", "v2"], channel_ids := ["A"],
    scanned := ["A", "A"], results_fetched := 2 }

/-- A page with one item and a continuation token. -/
def pageBeforeErr : SearchPage :=
  { items := [{ videoId := "v1", channelId := "A" }],
    nextPageToken := some "tok" }

/-- A page with one item and no continuation token. -/
def pageOnlyOk : SearchPage :=
  { items := [{ videoId := "v1", channelId := "A" }],
    nextPageToken := none }

/-- Membership in the Filter stage output: a record survives both the
null-drop and the `is_new` filter exactly when it occurs in the input and
its timestamp is present and at or after the cutoff. -/
lemma mem_filterNewChannels_iff (cutoff : Int) (records : List ChannelRecord)
    (r : ChannelRecord) :
    r ∈ filterNewChannels cutoff records ↔
      r ∈ records ∧ ∃ t, r.published_at = some t ∧ cutoff ≤ t := by
  rw [filterNewChannels, dropnaPublishedAt, List.mem_filter, List.mem_filter]
  cases hpub : r.published_at with
  | none => simp [isNew, hpub]
  | some t => simp [isNew, hpub, and_assoc]

/-- C1: a record survives the Filter stage iff its parsed creation
timestamp `T` is present and satisfies `T ≥ C` for the cutoff `C`; in
particular a record with a missing (null) timestamp never survives, since
no `t` witnesses the right-hand side. -/
theorem filter_survives_iff (cutoff : Int) (records : List ChannelRecord)
    (r : ChannelRecord) :
    r ∈ filterNewChannels cutoff records ↔
      r ∈ records ∧ ∃ t, r.published_at = some t ∧ cutoff ≤ t :=
  mem_filterNewChannels_iff cutoff records r

/-- C4: a row with the hidden flag set renders the literal hidden marker
`"非公開"` whatever its numeric count is; with the flag clear it renders
the comma-grouped numeric count. -/
theorem hidden_marker_display (r : ChannelRecord) :
    (r.hidden_subscriber_count = true → subscriberDisplay r = "非公開") ∧
    (r.hidden_subscriber_count = false →
      subscriberDisplay r = formatThousands r.subscriber_count) := by
  cases h : r.hidden_subscriber_count <;> simp [subscriberDisplay, h]

/-- Witness for C4 at a concrete record: the hidden variant renders the
marker, the visible variant renders `1,234,567`. -/
theorem hidden_marker_display_witness :
    subscriberDisplay recHiddenW = "非公開" ∧
    subscriberDisplay recShownW = "1,234,567" :=
  ⟨(hidden_marker_display recHiddenW).1 rfl,
   ((hidden_marker_display recShownW).2 rfl).trans (by decide)⟩

/-- C10: when an item's `publishedAt` string is entirely absent, the
decoder does not skip the item and emits no warning — it appends a record
whose `published_at` is null — and that record is then dropped by the
Filter stage's null-timestamp drop for every cutoff. -/
theorem missing_timestamp_record_kept (parse : String → Option Int)
    (item : RawChannelItem) (h : item.snippet.publishedAt = none) :
    ∃ r, decodeChannelItem parse item = (some r, false) ∧
      r.published_at = none ∧
      ∀ cutoff records, r ∉ filterNewChannels cutoff records := by
  refine ⟨{ channel_id := item.itemId, channel_name := item.snippet.title,
            channelDescr := item.snippet.snippetDescr,
            published_at_str := none, published_at := none,
            subscriber_count := subscriberCountInt item.statistics,
            view_count := statCountInt item.statistics.viewCount,
            video_count := statCountInt item.statistics.videoCount,
            hidden_subscriber_count :=
              (item.statistics.hiddenSubscriberCount).getD false },
         ?_, rfl, ?_⟩
  · simp [decodeChannelItem, h]
  · intro cutoff records hmem
    obtain ⟨-, t, ht, -⟩ := (mem_filterNewChannels_iff cutoff records _).mp hmem
    simp at ht

/-- Witness for C10 at a concrete item with no `publishedAt` key. -/
theorem missing_timestamp_record_kept_witness :
    itemNoDateW.snippet.publishedAt = none ∧
    ∃ r, decodeChannelItem (fun _ => none) itemNoDateW = (some r, false) ∧
      r.published_at = none ∧
      ∀ cutoff records, r ∉ filterNewChannels cutoff records :=
  ⟨rfl, missing_timestamp_record_kept (fun _ => none) itemNoDateW rfl⟩

/-- C3 counterexample: the decoder keys the stored count on the presence
of the `subscriberCount` field, not on the hidden flag — an item marked
hidden that still carries the string `"500"` decodes to a record with
`hidden_subscriber_count = true` and stored count `500`, not `0`. -/
theorem hidden_flag_count_counterexample :
    ∃ r, (decodeChannelItem (fun _ => none) itemHiddenWithCount).1 = some r ∧
      r.hidden_subscriber_count = true ∧ r.subscriber_count = 500 :=
  ⟨_, rfl, rfl, by decide⟩

/-- Every decoded record takes its stored count and hidden flag from
`subscriberCountInt` and the raw `hiddenSubscriberCount` respectively. -/
lemma decodeChannelItem_fields (parse : String → Option Int)
    (item : RawChannelItem) (r : ChannelRecord) (w : Bool)
    (h : decodeChannelItem parse item = (some r, w)) :
    r.subscriber_count = subscriberCountInt item.statistics ∧
    r.hidden_subscriber_count =
      (item.statistics.hiddenSubscriberCount).getD false := by
  cases hpub : item.snippet.publishedAt with
  | none =>
    simp [decodeChannelItem, hpub] at h
    obtain ⟨h1, -⟩ := h
    subst h1
    exact ⟨rfl, rfl⟩
  | some s =>
    cases hps : parse s with
    | none => simp [decodeChannelItem, hpub, hps] at h
    | some t =>
      simp [decodeChannelItem, hpub, hps] at h
      obtain ⟨h1, -⟩ := h
      subst h1
      exact ⟨rfl, rfl⟩

/-- C3 amended: the stored subscriber count is `0` whenever the
`subscriberCount` field is missing or empty — which is how a platform
response presents a hidden count — while the hidden flag itself is not
consulted by the count computation. -/
theorem hidden_count_amended (parse : String → Option Int)
    (item : RawChannelItem) (r : ChannelRecord)
    (hsub : item.statistics.subscriberCount = none ∨
      item.statistics.subscriberCount = some "")
    (hr : (decodeChannelItem parse item).1 = some r) :
    r.subscriber_count = 0 := by
  have hpair : decodeChannelItem parse item =
      (some r, (decodeChannelItem parse item).2) := by rw [← hr]
  have hfields := decodeChannelItem_fields parse item r _ hpair
  rcases hsub with h | h <;>
    simp [hfields.1, subscriberCountInt, h]

/-- Witness for the amended C3 at a concrete hidden item with the count
field omitted: the stored count is 0. -/
theorem hidden_count_amended_witness :
    ∃ r, (decodeChannelItem (fun _ => none) itemHiddenNoCount).1 = some r ∧
      r.subscriber_count = 0 :=
  ⟨_, rfl, hidden_count_amended (fun _ => none) itemHiddenNoCount _
    (Or.inl rfl) rfl⟩

/-- C9: with an empty credential the wrapper takes the warning path and
returns no client handle, whatever the build call would have done, and
the main block attempts no network call at all for that run. -/
theorem empty_key_no_network (buildResult : Except Unit Unit) (env : AppEnv) :
    get_youtube_service "" buildResult = ServiceOutcome.noKeyWarning ∧
    appApiCalls "" env = [] :=
  ⟨rfl, rfl⟩

/-- Folding the batch loop from any accumulator appends exactly the
decoded records of the successful batches and the failed batches
themselves. -/
lemma details_foldl_append (parse : String → Option Int)
    (svc : List String → Except Unit (List RawChannelItem))
    (L : List (List String)) (recs : List ChannelRecord)
    (errs : List (List String)) :
    L.foldl (fun acc batch =>
        match svc batch with
        | Except.error _ => (acc.1, acc.2 ++ [batch])
        | Except.ok items => (acc.1 ++ decodeItems parse items, acc.2))
      (recs, errs) =
      (recs ++ (L.filterMap (fun b =>
          match svc b with
          | Except.ok items => some (decodeItems parse items)
          | Except.error _ => none)).flatten,
       errs ++ L.filter (fun b =>
          match svc b with
          | Except.ok _ => false
          | Except.error _ => true)) := by
  induction L generalizing recs errs with
  | nil => simp
  | cons b L ih =>
    cases hb : svc b with
    | error e =>
      simp only [List.foldl_cons, List.filterMap_cons, List.filter_cons, hb]
      rw [ih]
      simp
    | ok items =>
      simp only [List.foldl_cons, List.filterMap_cons, List.filter_cons, hb]
      rw [ih]
      simp

/-- C8: the record list `get_channel_details` returns is exactly the
concatenation, in batch order, of the decoded items of the batches whose
call succeeded — an erroring batch contributes nothing and does not stop
the loop — and the reported (failed) batches are exactly those whose call
raised. -/
theorem batch_error_only_that_batch (parse : String → Option Int)
    (svc : List String → Except Unit (List RawChannelItem))
    (channel_ids : List String) :
    get_channel_details parse svc channel_ids =
      ((chunkList MAX_CHANNELS_TO_FETCH_PER_CALL channel_ids).filterMap
        (fun b =>
          match svc b with
          | Except.ok items => some (decodeItems parse items)
          | Except.error _ => none)).flatten ∧
    (get_channel_details_run parse svc channel_ids).2 =
      (chunkList MAX_CHANNELS_TO_FETCH_PER_CALL channel_ids).filter
        (fun b =>
          match svc b with
          | Except.ok _ => false
          | Except.error _ => true) := by
  unfold get_channel_details get_channel_details_run
  rw [details_foldl_append]
  simp

/-- Adding to the channel-id set keeps it duplicate-free. -/
lemma setAdd_nodup (s : List String) (a : String) (h : s.Nodup) :
    (setAdd s a).Nodup := by
  unfold setAdd
  split
  · exact h
  · next hmem => simp [List.nodup_append, h, hmem]

/-- Folding set-adds over any list keeps the set duplicate-free. -/
lemma foldl_setAdd_nodup (l : List String) (s : List String) (h : s.Nodup) :
    (l.foldl setAdd s).Nodup := by
  induction l generalizing s with
  | nil => exact h
  | cons a l ih => exact ih _ (setAdd_nodup s a h)

/-- Set-add grows the support by at most one element. -/
lemma setAdd_length (s : List String) (a : String) :
    (setAdd s a).length ≤ s.length + 1 := by
  unfold setAdd
  split <;> simp

/-- The set has at most as many elements as were ever added to it. -/
lemma foldl_setAdd_length (l : List String) (s : List String) :
    (l.foldl setAdd s).length ≤ s.length + l.length := by
  induction l generalizing s with
  | nil => simp
  | cons a l ih =>
    have h1 := ih (setAdd s a)
    have h2 := setAdd_length s a
    simp only [List.foldl_cons, List.length_cons]
    omega

/-- The item loop turns a state satisfying the entry conditions into a
result quadruple satisfying `ScanOut`: logs stay aligned with the fetch
counter, the set stays the deduplication of the scanned ids, and the
counter never passes the quota. -/
lemma scanPageItems_spec (maxResults : Nat) (items : List SearchItem) :
    ∀ (vids chans scanned : List String) (fetched : Nat),
      chans = scanned.foldl setAdd [] →
      vids.length = fetched →
      scanned.length = fetched →
      fetched < maxResults →
      ScanOut maxResults
        (scanPageItems maxResults items vids chans scanned fetched) := by
  induction items with
  | nil =>
    intro vids chans scanned fetched hc hv hs hf
    simp only [scanPageItems, ScanOut]
    exact ⟨hv, hs, hc, by omega⟩
  | cons it rest ih =>
    intro vids chans scanned fetched hc hv hs hf
    have hc' : setAdd chans it.channelId =
        (scanned ++ [it.channelId]).foldl setAdd [] := by
      rw [List.foldl_append, ← hc]
      simp
    simp only [scanPageItems]
    split
    · next hge =>
      simp only [ScanOut]
      exact ⟨by simp [hv], by simp [hs], hc', by omega⟩
    · next hlt =>
      exact ih _ _ _ _ hc' (by simp [hv]) (by simp [hs]) (by omega)

/-- One successful loop iteration preserves the search invariant. -/
lemma searchStep_inv (maxResults : Nat) (st : SearchState) (page : SearchPage)
    (hinv : SearchInv maxResults st)
    (hlt : st.results_fetched < maxResults) :
    SearchInv maxResults (searchStep maxResults st page) := by
  obtain ⟨hv, hs, hc, -, hreq⟩ := hinv
  have hscan := scanPageItems_spec maxResults page.items st.video_ids
    st.channel_ids st.scanned st.results_fetched hc hv hs hlt
  obtain ⟨h1, h2, h3, h4⟩ := hscan
  refine ⟨h1, h2, h3, h4, ?_⟩
  intro p hp
  simp only [searchStep, List.mem_append, List.mem_singleton] at hp
  rcases hp with h | h
  · exact hreq p h
  · subst h
    exact ⟨rfl, hlt⟩

/-- The search loop preserves the invariant down to any successful final
state. -/
lemma searchLoop_inv (maxResults : Nat)
    (responses : List (Except Unit SearchPage)) :
    ∀ st st' : SearchState, SearchInv maxResults st →
      searchLoop maxResults responses st = some st' →
      SearchInv maxResults st' := by
  induction responses with
  | nil =>
    intro st st' hinv h
    simp only [searchLoop, Option.some.injEq] at h
    rw [← h]
    exact hinv
  | cons resp rest ih =>
    intro st st' hinv h
    cases resp with
    | error e =>
      simp only [searchLoop] at h
      split at h
      · exact absurd h (by simp)
      · simp only [Option.some.injEq] at h
        rw [← h]
        exact hinv
    | ok page =>
      simp only [searchLoop] at h
      split at h
      · next hlt =>
        have hstep := searchStep_inv maxResults st page hinv hlt
        cases htok : page.nextPageToken with
        | none =>
          rw [htok] at h
          simp only [Option.some.injEq] at h
          rw [← h]
          exact hstep
        | some tok =>
          rw [htok] at h
          simp only [] at h
          split at h
          · simp only [Option.some.injEq] at h
            rw [← h]
            exact hstep
          · exact ih _ _ hstep h
      · simp only [Option.some.injEq] at h
        rw [← h]
        exact hinv

/-- C6: a successful run scans at most `max_results` items (the video-id
and scanned logs are exactly one entry per scanned item), the returned
channel-id set is the deduplication of the scanned owning-channel ids —
so its size is at most the number of scanned items, hence at most
`max_results` — and every issued page request asked for
`min(MAX_VIDEO_RESULTS_PER_PAGE, max_results - results_fetched)` items. -/
theorem finder_scan_bounds (responses : List (Except Unit SearchPage))
    (maxResults : Nat) (st : SearchState)
    (h : searchRun responses maxResults = some st) :
    st.video_ids.length = st.results_fetched ∧
    st.results_fetched ≤ maxResults ∧
    st.channel_ids = st.scanned.foldl setAdd [] ∧
    st.channel_ids.length ≤ st.scanned.length ∧
    st.scanned.length = st.results_fetched ∧
    st.channel_ids.length ≤ maxResults ∧
    ∀ p ∈ st.requests,
      p.2 = min MAX_VIDEO_RESULTS_PER_PAGE (maxResults - p.1) ∧
        p.1 < maxResults := by
  have hinv0 : SearchInv maxResults
      { requests := [], video_ids := [], channel_ids := [], scanned := [],
        results_fetched := 0 } := by
    refine ⟨rfl, rfl, rfl, Nat.zero_le _, ?_⟩
    intro p hp
    simp at hp
  have hinv := searchLoop_inv maxResults responses _ st hinv0 h
  obtain ⟨hv, hs, hc, hb, hreq⟩ := hinv
  have hlen : st.channel_ids.length ≤ st.scanned.length := by
    rw [hc]
    simpa using foldl_setAdd_length st.scanned []
  exact ⟨hv, hb, hc, hlen, hs, by omega, hreq⟩

/-- Witness for C6: quota 2 over a page of three items (two sharing a
channel): exactly two items are scanned, the set has the one distinct
scanned id, and the single request asked for `min(50, 2) = 2`. -/
theorem finder_scan_bounds_witness :
    searchRun sampleBoundResponses 2 = some sampleBoundState ∧
    (sampleBoundState.video_ids.length = sampleBoundState.results_fetched ∧
    sampleBoundState.results_fetched ≤ 2 ∧
    sampleBoundState.channel_ids =
      sampleBoundState.scanned.foldl setAdd [] ∧
    sampleBoundState.channel_ids.length ≤ sampleBoundState.scanned.length ∧
    sampleBoundState.scanned.length = sampleBoundState.results_fetched ∧
    sampleBoundState.channel_ids.length ≤ 2 ∧
    ∀ p ∈ sampleBoundState.requests,
      p.2 = min MAX_VIDEO_RESULTS_PER_PAGE (2 - p.1) ∧ p.1 < 2) :=
  ⟨by decide, finder_scan_bounds sampleBoundResponses 2 sampleBoundState
    (by decide)⟩

/-- C5: the channel-id list the Finder returns holds each of its members
exactly once, even when the same channel id recurs across search pages,
and inserting an id already in the set is a no-op. -/
theorem finder_dedup (responses : List (Except Unit SearchPage))
    (maxResults : Nat) :
    (∀ c ∈ search_popular_videos responses maxResults,
      (search_popular_videos responses maxResults).count c = 1) ∧
    (∀ (s : List String) (a : String), a ∈ s → setAdd s a = s) := by
  constructor
  · intro c hc
    have hnd : (search_popular_videos responses maxResults).Nodup := by
      unfold search_popular_videos
      cases hrun : searchRun responses maxResults with
      | none => simp
      | some st =>
        have hinv0 : SearchInv maxResults
            { requests := [], video_ids := [], channel_ids := [],
              scanned := [], results_fetched := 0 } := by
          refine ⟨rfl, rfl, rfl, Nat.zero_le _, ?_⟩
          intro p hp
          simp at hp
        obtain ⟨-, -, hc', -, -⟩ :=
          searchLoop_inv maxResults responses _ st hinv0 hrun
        show st.channel_ids.Nodup
        rw [hc']
        exact foldl_setAdd_nodup st.scanned [] List.nodup_nil
    exact List.count_eq_one_of_mem hnd hc
  · intro s a ha
    simp [setAdd, ha]

/-- Witness for C5: channel id `A` appears on both sample pages yet is
listed once in the output, and re-adding a present id changes nothing. -/
theorem finder_dedup_witness :
    (search_popular_videos sampleDupResponses 10).count "A" = 1 ∧
    setAdd ["A", "B"] "A" = ["A", "B"] :=
  ⟨(finder_dedup sampleDupResponses 10).1 "A" (by decide),
   (finder_dedup sampleDupResponses 10).2 ["A", "B"] "A" (by decide)⟩

/-- When the quota leaves room for every item of the page, the item loop
scans them all. -/
lemma scanPageItems_all (maxResults : Nat) (items : List SearchItem) :
    ∀ (vids chans scanned : List String) (fetched : Nat),
      fetched + items.length < maxResults →
      (scanPageItems maxResults items vids chans scanned fetched).2.2.2 =
        fetched + items.length := by
  induction items with
  | nil =>
    intro vids chans scanned fetched hbound
    simp [scanPageItems]
  | cons it rest ih =>
    intro vids chans scanned fetched hbound
    simp only [List.length_cons] at hbound ⊢
    simp only [scanPageItems]
    rw [if_neg (by omega)]
    rw [ih _ _ _ (fetched + 1) (by omega)]
    omega

/-- If every page before the erroring call is successful, carries a
continuation token, and leaves the quota unfilled, the loop reaches the
error and the whole search aborts with `none`, whatever was accumulated. -/
lemma searchLoop_abort (maxResults : Nat) (pre : List SearchPage) :
    ∀ (rest : List (Except Unit SearchPage)) (st : SearchState),
      (∀ p ∈ pre, p.nextPageToken.isSome = true) →
      st.results_fetched + pageItemsTotal pre < maxResults →
      searchLoop maxResults
        (pre.map Except.ok ++ Except.error () :: rest) st = none := by
  induction pre with
  | nil =>
    intro rest st htok hbound
    simp only [pageItemsTotal, List.map_nil, List.sum_nil,
      Nat.add_zero] at hbound
    simp only [List.map_nil, List.nil_append, searchLoop]
    rw [if_pos hbound]
  | cons p pre ih =>
    intro rest st htok hbound
    have htotal : st.results_fetched + (p.items.length + pageItemsTotal pre) <
        maxResults := by
      simpa [pageItemsTotal] using hbound
    have hfet : st.results_fetched < maxResults := by omega
    have hstep : (searchStep maxResults st p).results_fetched =
        st.results_fetched + p.items.length := by
      simp only [searchStep]
      exact scanPageItems_all maxResults p.items _ _ _ _ (by omega)
    simp only [List.map_cons, List.cons_append, searchLoop]
    rw [if_pos hfet]
    cases htokp : p.nextPageToken with
    | none =>
      have := htok p (by simp)
      rw [htokp] at this
      simp at this
    | some tok =>
      rw [if_neg (by rw [hstep]; omega)]
      exact ih rest _ (fun q hq => htok q (by simp [hq])) (by rw [hstep]; omega)

/-- A loop fed only successful responses never aborts: it ends in some
final state. -/
lemma searchLoop_ok (maxResults : Nat)
    (responses : List (Except Unit SearchPage)) :
    ∀ st : SearchState, (∀ r ∈ responses, r.isOk = true) →
      ∃ st', searchLoop maxResults responses st = some st' := by
  induction responses with
  | nil =>
    intro st hok
    exact ⟨st, rfl⟩
  | cons resp rest ih =>
    intro st hok
    by_cases hfet : st.results_fetched < maxResults
    · cases resp with
      | error e =>
        have := hok (Except.error e) (by simp)
        simp [Except.isOk, Except.toBool] at this
      | ok page =>
        simp only [searchLoop]
        rw [if_pos hfet]
        cases htok : page.nextPageToken with
        | none => exact ⟨_, rfl⟩
        | some tok =>
          by_cases hge :
              (searchStep maxResults st page).results_fetched ≥ maxResults
          · rw [if_pos hge]
            exact ⟨_, rfl⟩
          · rw [if_neg hge]
            exact ih _ (fun r hr => hok r (by simp [hr]))
    · simp only [searchLoop]
      rw [if_neg hfet]
      exact ⟨st, rfl⟩

/-- C7: an error on any call the page loop actually makes aborts the
whole search and yields the empty id list, discarding everything
accumulated on the earlier pages; a loop fed only successful responses
returns exactly the accumulated channel-id set. -/
theorem search_error_aborts :
    (∀ (pre : List SearchPage) (rest : List (Except Unit SearchPage))
        (maxResults : Nat),
      (∀ p ∈ pre, p.nextPageToken.isSome = true) →
      pageItemsTotal pre < maxResults →
      search_popular_videos (pre.map Except.ok ++ Except.error () :: rest)
        maxResults = []) ∧
    (∀ (responses : List (Except Unit SearchPage)) (maxResults : Nat),
      (∀ r ∈ responses, r.isOk = true) →
      ∃ st, searchRun responses maxResults = some st ∧
        search_popular_videos responses maxResults = st.channel_ids) := by
  constructor
  · intro pre rest maxResults htok hbound
    have habort := searchLoop_abort maxResults pre rest
      { requests := [], video_ids := [], channel_ids := [], scanned := [],
        results_fetched := 0 } htok (by simpa using hbound)
    unfold search_popular_videos searchRun
    rw [habort]
  · intro responses maxResults hok
    obtain ⟨st', hst⟩ := searchLoop_ok maxResults responses
      { requests := [], video_ids := [], channel_ids := [], scanned := [],
        results_fetched := 0 } hok
    refine ⟨st', hst, ?_⟩
    unfold search_popular_videos searchRun
    rw [hst]

/-- Witness for C7: a successful page followed by an erroring call yields
the empty list even though channel id `A` had been accumulated, while the
same single page alone (no error) returns the accumulated set. -/
theorem search_error_aborts_witness :
    search_popular_videos [Except.ok pageBeforeErr, Except.error ()] 5 = [] ∧
    ∃ st, searchRun [Except.ok pageOnlyOk] 5 = some st ∧
      search_popular_videos [Except.ok pageOnlyOk] 5 = st.channel_ids := by
  constructor
  · exact search_error_aborts.1 [pageBeforeErr] [] 5 (by decide) (by decide)
  · exact search_error_aborts.2 [Except.ok pageOnlyOk] 5 (by decide)
